import Mathlib

/-!
Shallow embedding of the CI/CD healing agent (Python sources under
`server/agents/`): the workflow engine (`orchestrator.py`), the failure
detector and classifier (`test_runner.py`), the pipeline monitor
(`cicd_monitor.py`) and the branch-name handling (`orchestrator.py` and
`git_agent.py`).  Machine integers are modelled as `Nat`/`Int`, Python
strings as Lean `String` (operating on `String.data : List Char`), fallible
calls as `Option`/`Except`, and the external world (subprocess results,
network answers) as explicit parameters.
-/

namespace Spec2Proof

/-- One canonical failure record, mirroring the dicts built throughout
`test_runner.py`: `{"file": ..., "line": ..., "bug_type": ...,
"description": ..., "status": ...}`. -/
structure Failure where
  file : String
  line : Nat
  bug_type : String
  description : String
  status : String
deriving DecidableEq, Repr

/-! ## String helpers mirroring the Python primitives used by the source -/

/-- Python `pat in hay` substring test (`hay.__contains__`), on char lists.
An empty pattern is contained in every string, as in Python. -/
def hasSub (hay pat : List Char) : Bool :=
  if pat.isPrefixOf hay then true
  else
    match hay with
    | [] => false
    | _ :: t => hasSub t pat

/-- Python `str.lower()` restricted to ASCII, which is all the classifier
patterns and inputs of interest use. -/
def pyLower (s : String) : List Char :=
  s.data.map Char.toLower

/-- Python `str.strip()` (whitespace on both ends). -/
def pyStrip (s : String) : String :=
  String.mk ((s.data.dropWhile Char.isWhitespace).reverse.dropWhile Char.isWhitespace).reverse

/-- Python slice `s[:n]`. -/
def pyTake (n : Nat) (s : String) : String :=
  String.mk (s.data.take n)

/-- Worker for `pySplitLines`: `acc` holds the current line reversed. -/
def pySplitLinesAux (acc : List Char) : List Char → List (List Char)
  | [] => [acc.reverse]
  | c :: rest =>
    if c = '\n' then acc.reverse :: pySplitLinesAux [] rest
    else pySplitLinesAux (c :: acc) rest

/-- Python `s.split('\n')` (always at least one piece, empty pieces
kept). -/
def pySplitLines (s : String) : List String :=
  (pySplitLinesAux [] s.data).map String.mk

/-! ## FailureClassifier — `TestRunnerAgent._classify_bug_type` -/

/-- Pattern set of check 1 in `_classify_bug_type` (SYNTAX). -/
def syntaxPats : List String :=
  ["syntaxerror", "syntax error", "unexpected token",
   "unexpected identifier", "parseerror", "missing semicolon",
   "unexpected end of input"]

/-- Pattern set of check 2 (INDENTATION). -/
def indentationPats : List String :=
  ["indentationerror", "unexpected indent",
   "expected an indented block", "unindent does not match"]

/-- Pattern set of check 3 (IMPORT). -/
def importPats : List String :=
  ["modulenotfounderror", "importerror", "cannot find module",
   "no module named", "module not found", "cannot resolve module",
   "require is not defined"]

/-- Pattern set of check 4 (TYPE_ERROR). -/
def typeErrorPats : List String :=
  ["typeerror", "type error", "cannot read prop",
   "is not a function", "nonetype", "attributeerror",
   "undefined is not", "null is not", "ts2", "ts1"]

/-- Pattern set of check 5 (LINTING). -/
def lintingPats : List String :=
  ["unused import", "imported but unused", "f401",
   "unused variable", "w0611", "no-unused-vars",
   "undefined variable", "e0602", "eslint",
   "never used", "is assigned but"]

/-- Pattern set of check 6 (LOGIC; the function also falls through to
"LOGIC" when nothing matches, so this set does not change the result). -/
def logicPats : List String :=
  ["assertionerror", "assert", "expected", "received",
   "tobe", "toequal", "failed", "wrong result",
   "does not match", "mismatch"]

/-- `any(pattern in error_lower for pattern in pats)`. -/
def hitsAny (lowered : List Char) (pats : List String) : Bool :=
  pats.any (fun p => hasSub lowered p.data)

/-- `TestRunnerAgent._classify_bug_type`: lower-case the text, then test the
six pattern sets in order, returning on the first hit, defaulting to
"LOGIC". -/
def classify_bug_type (error_text : String) : String :=
  let e := pyLower error_text
  if hitsAny e syntaxPats then "SYNTAX"
  else if hitsAny e indentationPats then "INDENTATION"
  else if hitsAny e importPats then "IMPORT"
  else if hitsAny e typeErrorPats then "TYPE_ERROR"
  else if hitsAny e lintingPats then "LINTING"
  else if hitsAny e logicPats then "LOGIC"
  else "LOGIC"

/-! ## Deduplication — tail of `TestRunnerAgent.run_all_tests` -/

/-- The deduplication key `(f["file"], f["line"], f["bug_type"])`. -/
def failureKey (f : Failure) : String × Nat × String :=
  (f.file, f.line, f.bug_type)

/-- The `seen`-set loop of `run_all_tests`: keep a record iff its key was
not seen before (the Python code uses a `set`; membership is all that is
consulted, so a list of keys is an exact model). -/
def dedupGo (seen : List (String × Nat × String)) : List Failure → List Failure
  | [] => []
  | f :: rest =>
    if failureKey f ∈ seen then dedupGo seen rest
    else f :: dedupGo (failureKey f :: seen) rest

/-- `run_all_tests`'s final deduplication of the merged failure list. -/
def deduplicateFailures (fs : List Failure) : List Failure :=
  dedupGo [] fs

/-! ## Branch naming — `orchestrator.create_branch_name` and
`GitAgent._validate_branch_name` -/

/-- A character of the class `[A-Z0-9_]`. -/
def isBranchChar (c : Char) : Bool :=
  ('A' ≤ c && c ≤ 'Z') || ('0' ≤ c && c ≤ '9') || c = '_'

/-- The sanitisation applied to each of the two identifiers in
`create_branch_name`: `.upper()`, `.replace(" ", "_")`, then
`re.sub(r'[^A-Z0-9_]', '', ·)`.  `.upper()` is modelled for ASCII via
`Char.toUpper`; non-ASCII characters are removed by the final filter in
either semantics. -/
def sanitizeIdent (s : String) : List Char :=
  ((s.data.map Char.toUpper).map (fun c => if c = ' ' then '_' else c)).filter isBranchChar

/-- `orchestrator.create_branch_name`: `f"{team}_{leader}_AI_Fix"` over the
sanitised identifiers. -/
def create_branch_name (team_name leader_name : String) : String :=
  String.mk (sanitizeIdent team_name ++ '_' :: sanitizeIdent leader_name ++ "_AI_Fix".data)

/-- `GitAgent._validate_branch_name`: `re.match(r'^[A-Z0-9_]+_AI_Fix$', s)`.
Since `[A-Z0-9_]` cannot match the lower-case letters of the literal
suffix, the regex accepts exactly the strings of the form
`w ++ "_AI_Fix"` with `w` a non-empty string over `[A-Z0-9_]`, which is
what this decidable transcription checks. -/
def validate_branch_name (s : String) : Bool :=
  let cs := s.data
  let n := cs.length
  decide (8 ≤ n) && decide (cs.drop (n - 7) = "_AI_Fix".data) &&
    (cs.take (n - 7)).all isBranchChar && decide (1 ≤ n - 7)

/-! ## Pipeline monitor — `CICDMonitorAgent` -/

/-- Result dict of a pipeline check (`status`, `details`). -/
structure PipeResult where
  status : String
  details : String
deriving DecidableEq, Repr

/-- `CICDMonitorAgent._local_verification`. -/
def local_verification : PipeResult :=
  ⟨"completed", "No CI/CD configured - tests will be verified locally"⟩

/-- Scan the remainder of the owner segment for its terminating `/` and
check the first character after it, which must be neither `/` nor `.`. -/
def ownerRepoScan : List Char → Bool
  | [] => false
  | '/' :: d :: _ => !(d = '/' || d = '.')
  | '/' :: [] => false
  | _ :: rest => ownerRepoScan rest

/-- The `owner/repo` part of the
`re.match(r'https?://github\.com/([^/]+)/([^/\.]+)', url)` test of
`check_pipeline`: `[^/]+` cannot cross a slash, so the owner group must end
at the first `/` of the remainder, and the repo group only needs one
character that is neither `/` nor `.`; the owner group needs at least one
non-slash character first. -/
def ownerRepoMatch : List Char → Bool
  | [] => false
  | '/' :: _ => false
  | _ :: rest => ownerRepoScan rest

/-- Whether `repo_url` matches the GitHub-URL regex of `check_pipeline`. -/
def githubUrlMatch (url : String) : Bool :=
  if "https://github.com/".data.isPrefixOf url.data then
    ownerRepoMatch (url.data.drop 19)
  else if "http://github.com/".data.isPrefixOf url.data then
    ownerRepoMatch (url.data.drop 18)
  else false

/-- `CICDMonitorAgent.check_pipeline`: with a GitHub URL match and a
non-empty token it polls GitHub Actions (whose network-dependent outcome is
the parameter `githubActionsResult`; that path itself falls back to
`local_verification` on timeout); otherwise it returns
`_local_verification()`. -/
def check_pipeline (github_token repo_url : String)
    (githubActionsResult : PipeResult) : PipeResult :=
  if githubUrlMatch repo_url && !(github_token = "") then githubActionsResult
  else local_verification

/-! ## Workflow engine — `CICDHealingOrchestrator` -/

/-- The LangGraph nodes added in `_build_graph`, plus the `END` sentinel. -/
inductive Node where
  | cloneRepo | analyzeRepo | createBranch | runTests
  | fixCode | commitFixes | monitorCicd | finalize | done
deriving DecidableEq, Repr

/-- The fields of `AgentState` that the workflow nodes read or write.
`start_time`, `score`, `messages` and `cicd_runs` are wall-clock- or
log-only data read by no transition decision and are omitted. -/
structure OState where
  repo_url : String
  branch_name : String
  repo_path : String
  files_discovered : List String
  test_files : List String
  failures : List Failure
  total_failures : Nat
  fixes_applied : List String
  total_fixes : Nat
  commit_count : Nat
  iteration : Nat
  max_iterations : Nat
  all_tests_passed : Bool
  final_status : String
  error : Option String
deriving DecidableEq, Repr

/-- `CICDHealingOrchestrator._should_fix`: `"fix"` iff the failures list is
non-empty (Python truthiness of the list plus the length check). -/
def should_fix (s : OState) : Bool :=
  !s.failures.isEmpty

/-- `CICDHealingOrchestrator._should_retry`. -/
def should_retry (s : OState) : Bool :=
  !s.all_tests_passed && s.iteration < s.max_iterations

/-- `CICDHealingOrchestrator._clone_repo`: on success store the repo path;
on exception store `error` (and nothing else). -/
def clone_repo_node (s : OState) (result : Except String String) : OState :=
  match result with
  | .ok path => { s with repo_path := path }
  | .error e => { s with error := some e }

/-- `CICDHealingOrchestrator._analyze_repo`. -/
def analyze_repo_node (s : OState) (files test_files : List String) : OState :=
  { s with files_discovered := files, test_files := test_files }

/-- `CICDHealingOrchestrator._run_tests`: overwrite `failures` with this
pass's result and set `total_failures` to its length. -/
def run_tests_node (s : OState) (found : List Failure) : OState :=
  { s with failures := found, total_failures := found.length }

/-- `CICDHealingOrchestrator._fix_code`: append the fixes and add their
count to `total_fixes`. -/
def fix_code_node (s : OState) (fixes : List String) : OState :=
  { s with fixes_applied := s.fixes_applied ++ fixes,
           total_fixes := s.total_fixes + fixes.length }

/-- `CICDHealingOrchestrator._commit_fixes`. -/
def commit_fixes_node (s : OState) : OState :=
  { s with commit_count := s.commit_count + 1 }

/-- `CICDHealingOrchestrator._monitor_cicd`: increment `iteration` and set
`all_tests_passed` iff the pipeline status is `"passed"`. -/
def monitor_cicd_node (s : OState) (pipelineStatus : String) : OState :=
  { s with iteration := s.iteration + 1,
           all_tests_passed := pipelineStatus = "passed" }

/-- The status decision of `CICDHealingOrchestrator._finalize` (its two
trailing branches both yield `"FAILED"`, exactly as in the source). -/
def finalStatusOf (s : OState) : String :=
  if s.total_failures = 0 ∧ s.total_fixes = 0 then "NO_ISSUES_FOUND"
  else if s.all_tests_passed then "PASSED"
  else if 0 < s.total_fixes ∧ s.failures.length = 0 then "PASSED"
  else if 0 < s.failures.length ∧ s.max_iterations ≤ s.iteration then "FAILED"
  else "FAILED"

/-- `CICDHealingOrchestrator._finalize` (the score, being wall-clock
derived, is omitted; it does not feed the status). -/
def finalize_node (s : OState) : OState :=
  { s with final_status := finalStatusOf s }

/-- The external world one run interacts with: the clone outcome, the
analyzer result, and for the k-th visit of each looping node the failures
the test run detects, the fixes the repair collaborator returns, and the
status `check_pipeline` reports. -/
structure Env where
  cloneResult : Except String String
  analyzedFiles : List String
  analyzedTests : List String
  testsFound : Nat → List Failure
  fixesMade : Nat → List String
  pipelineStatus : Nat → String

/-- A point of the graph execution: current node, current state, how many
times each oracle-fed node has run, and how often `monitor_cicd` executed
(a trace observable, not a state field). -/
structure Config where
  node : Node
  st : OState
  tIdx : Nat
  fIdx : Nat
  mIdx : Nat
  monitorVisits : Nat
deriving DecidableEq, Repr

/-- One LangGraph step of the compiled workflow of `_build_graph`: execute
the current node on the state and follow its (conditional) outgoing edge.
The edges are exactly those added in `_build_graph`: `clone_repo →
analyze_repo → create_branch → run_tests` unconditional, `run_tests`
branching on `_should_fix`, `fix_code → commit_fixes → monitor_cicd`
unconditional, `monitor_cicd` branching on `_should_retry`, and
`finalize → END`. -/
def step (env : Env) (c : Config) : Config :=
  match c.node with
  | .cloneRepo =>
      { c with st := clone_repo_node c.st env.cloneResult, node := .analyzeRepo }
  | .analyzeRepo =>
      { c with st := analyze_repo_node c.st env.analyzedFiles env.analyzedTests,
               node := .createBranch }
  | .createBranch =>
      { c with node := .runTests }
  | .runTests =>
      let st := run_tests_node c.st (env.testsFound c.tIdx)
      { c with st := st, tIdx := c.tIdx + 1,
               node := if should_fix st then .fixCode else .finalize }
  | .fixCode =>
      { c with st := fix_code_node c.st (env.fixesMade c.fIdx),
               fIdx := c.fIdx + 1, node := .commitFixes }
  | .commitFixes =>
      { c with st := commit_fixes_node c.st, node := .monitorCicd }
  | .monitorCicd =>
      let st := monitor_cicd_node c.st (env.pipelineStatus c.mIdx)
      { c with st := st, mIdx := c.mIdx + 1,
               monitorVisits := c.monitorVisits + 1,
               node := if should_retry st then .runTests else .finalize }
  | .finalize =>
      { c with st := finalize_node c.st, node := .done }
  | .done => c

/-- Iterated stepping (`END` is absorbing). -/
def runN (env : Env) (c : Config) : Nat → Config
  | 0 => c
  | n + 1 => runN env (step env c) n

/-- The `initial_state` built in `CICDHealingOrchestrator.run` (time- and
log-only fields omitted as in `OState`). -/
def initialState (repo_url team_name leader_name : String) : OState :=
  { repo_url := repo_url
    branch_name := create_branch_name team_name leader_name
    repo_path := ""
    files_discovered := []
    test_files := []
    failures := []
    total_failures := 0
    fixes_applied := []
    total_fixes := 0
    commit_count := 0
    iteration := 0
    max_iterations := 5
    all_tests_passed := false
    final_status := "RUNNING"
    error := none }

/-- Initial configuration: entry point `clone_repo`, nothing executed yet. -/
def initConfig (repo_url team_name leader_name : String) : Config :=
  { node := .cloneRepo
    st := initialState repo_url team_name leader_name
    tIdx := 0, fIdx := 0, mIdx := 0, monitorVisits := 0 }

/-! ## Detection adapters — `TestRunnerAgent` -/

/-- `int(·)` over a non-empty digit run. -/
def digitsToNat (ds : List Char) : Nat :=
  ds.foldl (fun acc c => acc * 10 + (c.toNat - '0'.toNat)) 0

/-- `re.search(r'line (\d+)', context)` of `_extract_failure_details`:
leftmost occurrence of the token `line `, a space and at least one digit;
the group is the maximal digit run there. -/
def findLineNum : List Char → Option Nat
  | [] => none
  | c :: rest =>
    if "line ".data.isPrefixOf (c :: rest) then
      let ds := ((c :: rest).drop 5).takeWhile Char.isDigit
      if ds.isEmpty then findLineNum rest else some (digitsToNat ds)
    else findLineNum rest

/-- `TestRunnerAgent._extract_failure_details` (its `full_output` argument
is unused in the source and dropped here): line number from the first
`line N` in the context (default 1), bug type from the classifier,
description the last stripped non-blank line not starting with `_`
(default "Test failure"), truncated to 200 characters. -/
def extract_failure_details (file_path context : String) : Failure :=
  let line_num := (findLineNum context.data).getD 1
  let bug_type := classify_bug_type context
  let desc_lines := (pySplitLines context).filterMap
    (fun l =>
      let t := pyStrip l
      if !t.data.isEmpty && !("_".data.isPrefixOf l.data) then some t else none)
  let description := desc_lines.getLast?.getD "Test failure"
  { file := file_path, line := line_num, bug_type := bug_type,
    description := pyTake 200 description, status := "pending" }

/-- The flake8 `code → bug_type` mapping of `_run_flake8` (initial value
"LINTING"; `E1*`/`W*` keep it, `E9*` means SYNTAX, `F4*` means IMPORT). -/
def flake8BugType (code : List Char) : String :=
  if "E1".data.isPrefixOf code || "W".data.isPrefixOf code then "LINTING"
  else if "E9".data.isPrefixOf code then "SYNTAX"
  else if "F4".data.isPrefixOf code then "IMPORT"
  else "LINTING"

/-- `re.match(r'([^:]+):(\d+):\d+: ([A-Z]\d+) (.+)', line.strip())` of
`_run_flake8`, and the record built from a match.  Each group is
deterministic: `[^:]+` must stop at the first colon, each `\d+` must be the
maximal digit run (the character after it is the non-digit `:` or space),
`[A-Z]\d+` likewise, and `(.+)` takes the non-empty rest of the line. -/
def parseFlake8Line (raw : String) : Option Failure :=
  let cs := (pyStrip raw).data
  let file := cs.takeWhile (fun c => !(c = ':'))
  if file.isEmpty then none else
  match cs.drop file.length with
  | ':' :: r1 =>
    let row := r1.takeWhile Char.isDigit
    if row.isEmpty then none else
    match r1.drop row.length with
    | ':' :: r2 =>
      let col := r2.takeWhile Char.isDigit
      if col.isEmpty then none else
      match r2.drop col.length with
      | ':' :: ' ' :: l :: r3 =>
        if !('A' ≤ l && l ≤ 'Z') then none else
        let codeDigits := r3.takeWhile Char.isDigit
        if codeDigits.isEmpty then none else
        match r3.drop codeDigits.length with
        | ' ' :: text =>
          if text.isEmpty then none else
          let code := l :: codeDigits
          some { file := String.mk file
                 line := digitsToNat row
                 bug_type := flake8BugType code
                 description := String.mk (code ++ ": ".data ++ text)
                 status := "pending" }
        | _ => none
      | _ => none
    | _ => none
  | _ => none

/-- `_run_flake8`'s parse of the captured stdout: one candidate record per
line of output. -/
def flake8Parse (stdout : String) : List Failure :=
  (pySplitLines stdout).filterMap parseFlake8Line

/-- `TestRunnerAgent._run_flake8`: the whole body is wrapped in
`try/except`, so an execution failure (the `Option` being `none`)
contributes zero records. -/
def run_flake8 (execResult : Option String) : List Failure :=
  match execResult with
  | none => []
  | some out => flake8Parse out

/-- `TestRunnerAgent._run_pytest`: everything is wrapped in `try/except`,
so an execution failure contributes zero records; on success the captured
output goes through `_parse_pytest_output`, modelled abstractly by the
`parsed` argument (its string processing is not at issue in any claim). -/
def run_pytest (execSucceeded : Bool) (parsed : List Failure) : List Failure :=
  if execSucceeded then parsed else []

/-- Result of a completed Jest subprocess. -/
structure JestResult where
  returncode : Int
  stdout : String
  stderr : String

/-- The placeholder record `_run_jest` fabricates per `*.test.js` /
`*.spec.js` file when Jest could not run at all. -/
def jestPlaceholder (test_file : String) : Failure :=
  { file := test_file, line := 1, bug_type := "LOGIC",
    description := "Test file exists but couldn\x27t run - likely has failures",
    status := "pending" }

/-- `TestRunnerAgent._run_jest`: if every execution method raised or timed
out (`execResult = none`) the caught exception yields zero records; if the
subprocess came back with a non-zero code, empty stdout and `npm error` in
stderr, one placeholder failure per `*.test.js`/`*.spec.js` file is added;
otherwise stdout is parsed as JSON or as text, modelled abstractly by
`parsed`. -/
def run_jest (test_files : List String) (execResult : Option JestResult)
    (parsed : List Failure) : List Failure :=
  match execResult with
  | none => []
  | some r =>
    if !(r.returncode = 0) && r.stdout.data.isEmpty &&
        hasSub r.stderr.data "npm error".data then
      (test_files.filter
        (fun f => ".test.js".data.isSuffixOf f.data ||
                  ".spec.js".data.isSuffixOf f.data)).map jestPlaceholder
    else parsed

/-- One eslint diagnostic as decoded from `--format=json` output. -/
structure EslintMessage where
  line : Nat
  message : String

/-- One file entry of the decoded eslint JSON. -/
structure EslintFileResult where
  filePath : String
  messages : List EslintMessage

/-- `TestRunnerAgent._run_eslint`: an execution failure (outer `none`) or a
JSON decode failure (inner `none`) contributes zero records; otherwise one
LINTING record per message, with the relative path taken as given and the
message text passed through untruncated. -/
def run_eslint (execResult : Option (Option (List EslintFileResult))) : List Failure :=
  match execResult with
  | none => []
  | some none => []
  | some (some data) =>
    data.flatMap (fun fr => fr.messages.map (fun m =>
      { file := fr.filePath, line := m.line, bug_type := "LINTING",
        description := m.message, status := "pending" }))

/-! ## Spec-side definitions used for refinement statements -/

/-- The Finalize decision exactly as the specification words it: four
rules evaluated in order, first match wins, rule 4 a plain otherwise. -/
def finalStatusSpecRules (s : OState) : String :=
  if s.total_failures = 0 ∧ s.total_fixes = 0 then "NO_ISSUES_FOUND"
  else if s.all_tests_passed then "PASSED"
  else if 0 < s.total_fixes ∧ s.failures.isEmpty then "PASSED"
  else "FAILED"

/-- A state at Finalize with the given counters, failure list, iteration
and pipeline flag (the remaining fields do not enter the decision). -/
def mkFinState (tf tx : Nat) (fails : List Failure) (iter : Nat)
    (passed : Bool) : OState :=
  { repo_url := "", branch_name := "", repo_path := ""
    files_discovered := [], test_files := []
    failures := fails, total_failures := tf
    fixes_applied := [], total_fixes := tx
    commit_count := 0, iteration := iter, max_iterations := 5
    all_tests_passed := passed, final_status := "RUNNING", error := none }

/-- A generic pending failure record used to populate concrete states. -/
def someFailure (file : String) (line : Nat) : Failure :=
  { file := file, line := line, bug_type := "LOGIC",
    description := "bad", status := "pending" }

/-! ## Theorems -/

/-- **C2.** The Finalize step computes `final_status` by the four
spec rules in order, first match wins: the source decision coincides with
the spec decision on every state, and the three concrete instances of the
claim evaluate as stated (`totalFailures=0, totalFixes=0` yields
`NO_ISSUES_FOUND`; `totalFailures=3, totalFixes=3, currentFailures=[]`
yields `PASSED`; `totalFailures=3, totalFixes=1`, two current failures and
`iteration=5` yields `FAILED`). -/
theorem finalize_first_match_rules :
    (∀ s : OState, finalStatusOf s = finalStatusSpecRules s) ∧
    finalStatusOf (mkFinState 0 0 [] 0 false) = "NO_ISSUES_FOUND" ∧
    finalStatusOf (mkFinState 3 3 [] 3 false) = "PASSED" ∧
    finalStatusOf
      (mkFinState 3 1 [someFailure "a.py" 1, someFailure "b.py" 2] 5 false)
      = "FAILED" := by
  refine ⟨fun s => ?_, by decide, by decide, by decide⟩
  simp only [finalStatusOf, finalStatusSpecRules,
    List.isEmpty_iff_length_eq_zero]
  split_ifs <;> rfl

/-- **C5.** `_classify_bug_type` lower-cases its input and tests the fixed
pattern sets in the priority order SYNTAX, INDENTATION, IMPORT,
TYPE_ERROR, LINTING, LOGIC, returning the label of the first matching set
and LOGIC when no set matches; in particular any text hitting a
syntax-error marker is classified SYNTAX regardless of any assertion
marker. -/
theorem classify_priority_order : ∀ t : String,
    (hitsAny (pyLower t) syntaxPats = true →
      classify_bug_type t = "SYNTAX") ∧
    (hitsAny (pyLower t) syntaxPats = false →
      hitsAny (pyLower t) indentationPats = true →
      classify_bug_type t = "INDENTATION") ∧
    (hitsAny (pyLower t) syntaxPats = false →
      hitsAny (pyLower t) indentationPats = false →
      hitsAny (pyLower t) importPats = true →
      classify_bug_type t = "IMPORT") ∧
    (hitsAny (pyLower t) syntaxPats = false →
      hitsAny (pyLower t) indentationPats = false →
      hitsAny (pyLower t) importPats = false →
      hitsAny (pyLower t) typeErrorPats = true →
      classify_bug_type t = "TYPE_ERROR") ∧
    (hitsAny (pyLower t) syntaxPats = false →
      hitsAny (pyLower t) indentationPats = false →
      hitsAny (pyLower t) importPats = false →
      hitsAny (pyLower t) typeErrorPats = false →
      hitsAny (pyLower t) lintingPats = true →
      classify_bug_type t = "LINTING") ∧
    (hitsAny (pyLower t) syntaxPats = false →
      hitsAny (pyLower t) indentationPats = false →
      hitsAny (pyLower t) importPats = false →
      hitsAny (pyLower t) typeErrorPats = false →
      hitsAny (pyLower t) lintingPats = false →
      classify_bug_type t = "LOGIC") := by
  intro t
  refine ⟨?_, ?_, ?_, ?_, ?_, ?_⟩ <;>
    · intros
      simp [classify_bug_type, *]

/-- Witness for C5 at a text carrying both a syntax-error marker and an
assertion-error marker: the syntax set hits, the logic set hits, and the
classifier returns SYNTAX. -/
theorem classify_priority_order_witness :
    hitsAny (pyLower "SyntaxError: bad token AssertionError: expected 1")
      syntaxPats = true ∧
    hitsAny (pyLower "SyntaxError: bad token AssertionError: expected 1")
      logicPats = true ∧
    classify_bug_type "SyntaxError: bad token AssertionError: expected 1"
      = "SYNTAX" :=
  ⟨by decide, by decide,
   (classify_priority_order
     "SyntaxError: bad token AssertionError: expected 1").1 (by decide)⟩

/-- Per-key characterisation of the `seen`-set loop: among the kept
records, the ones with a given key are the first input record with that
key, provided the key was not already seen — the loop keeps first
occurrences and drops every later duplicate. -/
lemma dedupGo_filter_key (k : String × Nat × String) :
    ∀ (fs : List Failure) (seen : List (String × Nat × String)),
      (dedupGo seen fs).filter (fun f => decide (failureKey f = k)) =
        if k ∈ seen then []
        else (fs.filter (fun f => decide (failureKey f = k))).take 1 := by
  intro fs
  induction fs with
  | nil => intro seen; simp [dedupGo]
  | cons f rest ih =>
    intro seen
    by_cases hf : failureKey f ∈ seen
    · rw [dedupGo, if_pos hf, ih]
      by_cases hk : k ∈ seen
      · simp [hk]
      · have hne : ¬ failureKey f = k := fun h => hk (h ▸ hf)
        simp [hk, List.filter_cons, hne]
    · rw [dedupGo, if_neg hf]
      by_cases hfk : failureKey f = k
      · have hk : ¬ k ∈ seen := fun h => hf (hfk ▸ h)
        have hmem : k ∈ failureKey f :: seen := by simp [hfk]
        simp [List.filter_cons, decide_eq_true_eq, hfk, ih, hk, hmem]
      · have hmm : (k ∈ failureKey f :: seen) ↔ k ∈ seen := by
          constructor
          · intro h
            rcases List.mem_cons.mp h with h1 | h1
            · exact absurd h1.symm hfk
            · exact h1
          · exact fun h => List.mem_cons_of_mem _ h
        simp [List.filter_cons, decide_eq_true_eq, hfk, ih, hmm]

/-- **C6.** The detector's final deduplication keeps, for every
`(file, line, bug_type)` key, exactly the first input record carrying that
key: filtering the output by any key equals taking the head of the input
filtered by that key, and for two records sharing a key but differing in
description only the first-seen record (with its description) survives. -/
theorem dedup_unique_first_seen :
    (∀ (fs : List Failure) (k : String × Nat × String),
      (deduplicateFailures fs).filter (fun f => decide (failureKey f = k)) =
        (fs.filter (fun f => decide (failureKey f = k))).take 1) ∧
    (∀ f1 f2 : Failure, failureKey f1 = failureKey f2 →
      deduplicateFailures [f1, f2] = [f1]) := by
  constructor
  · intro fs k
    rw [deduplicateFailures, dedupGo_filter_key]
    simp
  · intro f1 f2 h
    simp [deduplicateFailures, dedupGo, h]

/-- Witness for C6: two concrete records with the same
`(file, line, bug_type)` key and different descriptions collapse to the
first one. -/
theorem dedup_unique_first_seen_witness :
    deduplicateFailures
      [{ file := "a.py", line := 1, bug_type := "LOGIC",
         description := "first description", status := "pending" },
       { file := "a.py", line := 1, bug_type := "LOGIC",
         description := "second description", status := "pending" }] =
      [{ file := "a.py", line := 1, bug_type := "LOGIC",
         description := "first description", status := "pending" }] :=
  dedup_unique_first_seen.2
    { file := "a.py", line := 1, bug_type := "LOGIC",
      description := "first description", status := "pending" }
    { file := "a.py", line := 1, bug_type := "LOGIC",
      description := "second description", status := "pending" }
    (by decide)

/-- The sanitised identifiers consist only of `[A-Z0-9_]` characters,
because that is exactly what the final `re.sub` filter keeps. -/
lemma sanitizeIdent_all_branchChar (s : String) :
    (sanitizeIdent s).all isBranchChar = true := by
  simp only [sanitizeIdent, List.all_eq_true]
  intro c hc
  exact (List.mem_filter.mp hc).2

/-- **C8.** `create_branch_name` upper-cases each identifier, replaces
spaces with underscores, strips every character outside `[A-Z0-9_]`, joins
the two with an underscore and appends `_AI_Fix`; the documented example
evaluates as claimed, and every name it can ever return passes
`GitAgent._validate_branch_name`'s pattern `^[A-Z0-9_]+_AI_Fix$`. -/
theorem branch_name_format_and_validity :
    create_branch_name "Team One" "jane doe" = "TEAM_ONE_JANE_DOE_AI_Fix" ∧
    ∀ team leader : String,
      validate_branch_name (create_branch_name team leader) = true := by
  constructor
  · decide
  · intro team leader
    have hsplit : (create_branch_name team leader).data =
        (sanitizeIdent team ++ '_' :: sanitizeIdent leader) ++ "_AI_Fix".data := by
      simp [create_branch_name]
    set w : List Char := sanitizeIdent team ++ '_' :: sanitizeIdent leader with hw
    have hlen : (create_branch_name team leader).data.length = w.length + 7 := by
      rw [hsplit]
      simp
    have hsub : (create_branch_name team leader).data.length - 7 = w.length := by
      omega
    have hwall : w.all isBranchChar = true := by
      rw [hw]
      simp only [List.all_append, List.all_cons, Bool.and_eq_true]
      exact ⟨sanitizeIdent_all_branchChar team,
        by decide, sanitizeIdent_all_branchChar leader⟩
    have hwpos : 1 ≤ w.length := by
      rw [hw]
      simp
      omega
    simp only [validate_branch_name, hsplit, hsub, Bool.and_eq_true,
      decide_eq_true_eq]
    refine ⟨⟨⟨?_, ?_⟩, ?_⟩, ?_⟩
    · rw [← hsplit, hlen]
      omega
    · rw [← hsplit, hsub, hsplit, List.drop_left]
    · rw [← hsplit, hsub, hsplit, List.take_left]
      exact hwall
    · rw [← hsplit, hsub]
      exact hwpos

/-- `_clone_repo` never touches the iteration counter. -/
lemma clone_repo_node_iteration (s : OState) (r : Except String String) :
    (clone_repo_node s r).iteration = s.iteration := by
  cases r <;> rfl

/-- `_clone_repo` never touches the iteration cap. -/
lemma clone_repo_node_max (s : OState) (r : Except String String) :
    (clone_repo_node s r).max_iterations = s.max_iterations := by
  cases r <;> rfl

/-- `_clone_repo` never touches the failure counters. -/
lemma clone_repo_node_failures (s : OState) (r : Except String String) :
    (clone_repo_node s r).total_failures = s.total_failures ∧
    (clone_repo_node s r).failures = s.failures := by
  cases r <;> exact ⟨rfl, rfl⟩

/-- Inductive invariant of the compiled graph: the cap stays 5, the number
of `monitor_cicd` executions equals the iteration counter (only
`monitor_cicd` ever changes `iteration`, by exactly one), the counter never
exceeds the cap, it is still 0 in the linear prefix of the graph, and it is
strictly below the cap while inside the repair loop. -/
def EngineInv (c : Config) : Prop :=
  c.st.max_iterations = 5 ∧
  c.monitorVisits = c.st.iteration ∧
  c.st.iteration ≤ 5 ∧
  ((c.node = .cloneRepo ∨ c.node = .analyzeRepo ∨ c.node = .createBranch) →
    c.st.iteration = 0) ∧
  ((c.node = .runTests ∨ c.node = .fixCode ∨ c.node = .commitFixes ∨
      c.node = .monitorCicd) →
    c.st.iteration < 5)

/-- The invariant is preserved by one graph step. -/
lemma engineInv_step (env : Env) (c : Config) (h : EngineInv c) :
    EngineInv (step env c) := by
  obtain ⟨h1, h2, h3, h4, h5⟩ := h
  obtain ⟨node, st, tIdx, fIdx, mIdx, mv⟩ := c
  cases node with
  | cloneRepo =>
    unfold EngineInv step
    simp_all [clone_repo_node_iteration, clone_repo_node_max]
  | analyzeRepo =>
    unfold EngineInv step
    simp_all [analyze_repo_node]
  | createBranch =>
    unfold EngineInv step
    simp_all
  | runTests =>
    have hlt : st.iteration < 5 := h5 (by simp)
    unfold EngineInv step
    simp only [run_tests_node]
    split <;> simp_all
  | fixCode =>
    have hlt : st.iteration < 5 := h5 (by simp)
    unfold EngineInv step
    simp_all [fix_code_node]
  | commitFixes =>
    have hlt : st.iteration < 5 := h5 (by simp)
    unfold EngineInv step
    simp_all [commit_fixes_node]
  | monitorCicd =>
    have hlt : st.iteration < 5 := h5 (by simp)
    unfold EngineInv step
    simp only [monitor_cicd_node, should_retry]
    split <;> simp_all <;> omega
  | finalize =>
    unfold EngineInv step
    simp_all [finalize_node]
  | done =>
    exact ⟨h1, h2, h3, h4, h5⟩

/-- The invariant holds along every execution. -/
lemma engineInv_runN (env : Env) (c : Config) (h : EngineInv c) :
    ∀ n, EngineInv (runN env c n) := by
  intro n
  induction n generalizing c with
  | zero => exact h
  | succ m ih => exact ih (step env c) (engineInv_step env c h)

/-- The invariant holds at the initial configuration built by `run`. -/
lemma engineInv_init (u t l : String) : EngineInv (initConfig u t l) := by
  refine ⟨rfl, rfl, by simp [initConfig, initialState], fun _ => rfl, fun h => ?_⟩
  rcases h with h | h | h | h <;> simp [initConfig] at h

/-- **C3.** With `max_iterations = 5` (as `run` always sets), each
execution of the `monitor_cicd` node increments `iteration` by exactly
one whatever the pipeline outcome, and along any execution of the graph
from the initial state the `monitor_cicd` node runs at most 5 times. -/
theorem monitor_iteration_bound :
    (∀ (s : OState) (status : String),
      (monitor_cicd_node s status).iteration = s.iteration + 1) ∧
    (∀ (env : Env) (u t l : String) (n : Nat),
      (runN env (initConfig u t l) n).monitorVisits ≤ 5) := by
  constructor
  · intro s status
    rfl
  · intro env u t l n
    obtain ⟨-, h2, h3, -, -⟩ :=
      engineInv_runN env (initConfig u t l) (engineInv_init u t l) n
    omega

/-- The detection-counter invariant: at every point of an execution,
`total_failures` and `failures` hold exactly the result of the most recent
`run_tests` pass (and their initial values while none has run). -/
def LastPassInv (env : Env) (c : Config) : Prop :=
  c.st.total_failures =
    (match c.tIdx with
     | 0 => 0
     | k + 1 => (env.testsFound k).length) ∧
  c.st.failures =
    (match c.tIdx with
     | 0 => []
     | k + 1 => env.testsFound k)

/-- The detection-counter invariant is preserved by one graph step. -/
lemma lastPassInv_step (env : Env) (c : Config) (h : LastPassInv env c) :
    LastPassInv env (step env c) := by
  obtain ⟨h1, h2⟩ := h
  obtain ⟨node, st, tIdx, fIdx, mIdx, mv⟩ := c
  cases node with
  | cloneRepo =>
    obtain ⟨hc1, hc2⟩ := clone_repo_node_failures st env.cloneResult
    exact ⟨by simpa [step, hc1] using h1, by simpa [step, hc2] using h2⟩
  | analyzeRepo => exact ⟨h1, h2⟩
  | createBranch => exact ⟨h1, h2⟩
  | runTests =>
    unfold LastPassInv step
    simp [run_tests_node]
  | fixCode => exact ⟨h1, h2⟩
  | commitFixes => exact ⟨h1, h2⟩
  | monitorCicd =>
    unfold LastPassInv step
    simp only [monitor_cicd_node]
    split <;> exact ⟨h1, h2⟩
  | finalize => exact ⟨h1, h2⟩
  | done => exact ⟨h1, h2⟩

/-- The detection-counter invariant holds along every execution. -/
lemma lastPassInv_runN (env : Env) (c : Config) (h : LastPassInv env c) :
    ∀ n, LastPassInv env (runN env c n) := by
  intro n
  induction n generalizing c with
  | zero => exact h
  | succ m ih => exact ih (step env c) (lastPassInv_step env c h)

/-- **C10.** `run_tests` overwrites `total_failures` with the size of the
current pass's findings — the previous value never enters — and therefore
at every point of every execution from the initial state (in particular on
entering Finalize, where the NO_ISSUES_FOUND rule reads the field)
`total_failures` equals the failure count of the most recent detection
pass alone, not an accumulated total. -/
theorem total_failures_last_pass_only :
    (∀ (s : OState) (found : List Failure),
      (run_tests_node s found).total_failures = found.length) ∧
    (∀ (env : Env) (u t l : String) (n : Nat),
      (runN env (initConfig u t l) n).st.total_failures =
        (match (runN env (initConfig u t l) n).tIdx with
         | 0 => 0
         | k + 1 => (env.testsFound k).length)) := by
  constructor
  · intro s found
    rfl
  · intro env u t l n
    exact (lastPassInv_runN env (initConfig u t l) ⟨rfl, rfl⟩ n).1

/-- An environment in which the clone step throws (its message becomes the
recorded error) and everything else is inert. -/
def envCloneFail : Env :=
  { cloneResult := .error "clone failed"
    analyzedFiles := []
    analyzedTests := []
    testsFound := fun _ => []
    fixesMade := fun _ => []
    pipelineStatus := fun _ => "completed" }

/-- **C1 counterexample.** On a clone failure the engine does NOT
transition from Clone to Finalize: the only edge out of `clone_repo` in
`_build_graph` is the unconditional edge to `analyze_repo`, so the very
next node executed is Analyze — an intermediate node — even though the
state now records the error. -/
theorem clone_failure_goes_to_analyze_cex :
    (step envCloneFail (initConfig "https://example.com/r.git" "T" "L")).node
      = Node.analyzeRepo ∧
    ¬ (step envCloneFail (initConfig "https://example.com/r.git" "T" "L")).node
      = Node.finalize ∧
    (step envCloneFail (initConfig "https://example.com/r.git" "T" "L")).st.error
      = some "clone failed" :=
  ⟨rfl, by decide, rfl⟩

/-- **C1 (amended).** If the clone step fails, the state records the
failure message in `error`, but the engine then follows the unconditional
`clone_repo → analyze_repo` edge and proceeds to the Analyze node (and so
through the intermediate nodes), rather than jumping directly to
Finalize. -/
theorem clone_failure_records_error_then_analyze
    (env : Env) (c : Config) (msg : String)
    (h : env.cloneResult = Except.error msg) :
    (step env { c with node := Node.cloneRepo }).node = Node.analyzeRepo ∧
    (step env { c with node := Node.cloneRepo }).st.error = some msg := by
  refine ⟨rfl, ?_⟩
  simp [step, clone_repo_node, h]

/-- Witness for the amended C1 at a concrete failing environment. -/
theorem clone_failure_records_error_then_analyze_witness :
    (step envCloneFail
      { initConfig "https://example.com/x.git" "T2" "L2" with
        node := Node.cloneRepo }).node = Node.analyzeRepo ∧
    (step envCloneFail
      { initConfig "https://example.com/x.git" "T2" "L2" with
        node := Node.cloneRepo }).st.error = some "clone failed" :=
  clone_failure_records_error_then_analyze envCloneFail
    (initConfig "https://example.com/x.git" "T2" "L2") "clone failed" rfl

/-- An environment with no CI/CD integration: every pipeline check reports
`"completed"` (as `_local_verification` does), the first test pass finds
one failure, the repair step fixes it, and the second test pass finds
nothing. -/
def envNoCicd : Env :=
  { cloneResult := .ok "/tmp/repos/r_1"
    analyzedFiles := ["m.py"]
    analyzedTests := ["test_m.py"]
    testsFound := fun k => if k = 0 then [someFailure "m.py" 3] else []
    fixesMade := fun _ => ["fixed m.py"]
    pipelineStatus := fun _ => "completed" }

/-- **C4 counterexample.** With no CI/CD available (`check_pipeline`
reporting `"completed"` forever) the repair loop does NOT run until
`iteration` reaches `max_iterations` once all locally detected failures
are fixed: after the single failure is fixed, the next `run_tests` pass
finds nothing and `_should_fix` routes straight to Finalize, so the run
terminates with `iteration = 1`, not 5 — and still with status PASSED. -/
theorem no_cicd_loop_exits_early_cex :
    (runN envNoCicd (initConfig "https://gitlab.com/o/r" "T" "L") 10).node
      = Node.done ∧
    (runN envNoCicd (initConfig "https://gitlab.com/o/r" "T" "L") 10).st.iteration
      = 1 ∧
    ¬ (runN envNoCicd (initConfig "https://gitlab.com/o/r" "T" "L") 10).st.iteration
      = 5 ∧
    (runN envNoCicd (initConfig "https://gitlab.com/o/r" "T" "L") 10).st.final_status
      = "PASSED" := by
  refine ⟨rfl, rfl, by decide, rfl⟩

/-- **C4 (amended).** When no CI/CD integration is available (no GitHub
token or a non-GitHub URL), `check_pipeline` returns status `"completed"`,
never `"passed"`, so `monitor_cicd` leaves `all_tests_passed` false and
the flag can only become true through the pipeline-integration path;
however, once a `run_tests` pass finds no failures the engine leaves the
repair loop directly to Finalize, so with all locally detected failures
fixed the loop stops early rather than running until `iteration` reaches
`max_iterations`. -/
theorem no_cicd_completed_status_and_early_exit :
    (∀ (token url : String) (gha : PipeResult),
      githubUrlMatch url = false ∨ token = "" →
      (check_pipeline token url gha).status = "completed") ∧
    (∀ s : OState,
      (monitor_cicd_node s "completed").all_tests_passed = false) ∧
    (∀ (env : Env) (c : Config),
      env.testsFound c.tIdx = [] →
      (step env { c with node := Node.runTests }).node = Node.finalize) := by
  refine ⟨?_, ?_, ?_⟩
  · intro token url gha h
    have : ¬ (githubUrlMatch url && !(decide (token = ""))) = true := by
      rcases h with h | h <;> simp [h]
    simp [check_pipeline, this, local_verification]
  · intro s
    simp [monitor_cicd_node]
  · intro env c h
    simp [step, should_fix, run_tests_node, h]

/-- Witness for the amended C4: a GitLab URL with an empty token yields
`"completed"`, that status leaves `all_tests_passed` false, and an empty
test pass routes to Finalize. -/
theorem no_cicd_completed_status_and_early_exit_witness :
    (check_pipeline "" "https://gitlab.com/o/r" ⟨"passed", ""⟩).status
      = "completed" ∧
    (monitor_cicd_node (mkFinState 0 0 [] 0 false) "completed").all_tests_passed
      = false ∧
    (step envNoCicd
      { initConfig "https://gitlab.com/o/r" "T" "L" with
        node := Node.runTests, tIdx := 1 }).node = Node.finalize :=
  ⟨no_cicd_completed_status_and_early_exit.1 "" "https://gitlab.com/o/r"
      ⟨"passed", ""⟩ (Or.inr rfl),
   no_cicd_completed_status_and_early_exit.2.1 (mkFinState 0 0 [] 0 false),
   no_cicd_completed_status_and_early_exit.2.2 envNoCicd
     { initConfig "https://gitlab.com/o/r" "T" "L" with
       node := Node.runTests, tIdx := 1 } (by decide)⟩

/-- A Jest subprocess outcome in which Jest could not run at all: non-zero
exit code, empty stdout and an npm error on stderr. -/
def jestNpmError : JestResult :=
  { returncode := 1, stdout := "", stderr := "npm error ENOENT" }

/-- **C7 counterexample.** A Jest invocation that cannot execute does NOT
always contribute zero Failure records: when Jest comes back with a
non-zero code, empty stdout and `npm error` on stderr, `_run_jest`
fabricates one placeholder LOGIC failure per `*.test.js`/`*.spec.js` file
instead of returning an empty list. -/
theorem jest_failure_adds_placeholders_cex :
    run_jest ["a.test.js", "util.py"] (some jestNpmError) []
      = [jestPlaceholder "a.test.js"] ∧
    ¬ run_jest ["a.test.js", "util.py"] (some jestNpmError) [] = [] :=
  ⟨rfl, by simp [run_jest, jestNpmError, hasSub, jestPlaceholder]⟩

/-- **C7 (amended).** Detection tool invocations that cannot execute are
absorbed without aborting detection: a pytest execution failure, a Jest
run in which every execution method raised or timed out, a flake8
execution failure, and an eslint execution or JSON-decode failure each
contribute zero Failure records — with the single exception of the Jest
complete-failure path (non-zero exit, empty stdout, `npm error` in
stderr), which contributes exactly one placeholder LOGIC record per
`*.test.js`/`*.spec.js` test file. -/
theorem failed_tools_contribute_no_records :
    (∀ parsed : List Failure, run_pytest false parsed = []) ∧
    (∀ (tf : List String) (parsed : List Failure),
      run_jest tf none parsed = []) ∧
    run_flake8 none = [] ∧
    run_eslint none = [] ∧
    run_eslint (some none) = [] ∧
    (∀ (tf : List String) (r : JestResult) (parsed : List Failure),
      ¬ r.returncode = 0 → r.stdout.data = [] →
      hasSub r.stderr.data "npm error".data = true →
      run_jest tf (some r) parsed =
        (tf.filter (fun f => ".test.js".data.isSuffixOf f.data ||
            ".spec.js".data.isSuffixOf f.data)).map jestPlaceholder) := by
    refine ⟨fun _ => rfl, fun _ _ => rfl, rfl, rfl, rfl, ?_⟩
    intro tf r parsed h1 h2 h3
    simp [run_jest, h1, h2, h3]

/-- Witness for the amended C7 at the concrete npm-error outcome. -/
theorem failed_tools_contribute_no_records_witness :
    run_jest ["b.spec.js"] (some jestNpmError) [someFailure "x" 1]
      = [jestPlaceholder "b.spec.js"] := by
  have := failed_tools_contribute_no_records.2.2.2.2.2 ["b.spec.js"]
    jestNpmError [someFailure "x" 1] (by decide) rfl (by decide)
  simpa using this

/-- A flake8 output line whose message part alone is 250 characters. -/
def flake8LongLine : String :=
  "app.py:3:1: E501 " ++ String.mk (List.replicate 250 'x')

set_option maxRecDepth 20000 in
/-- **C9 counterexample.** Not every Failure record of a detection pass has
a description of at most 200 characters: the flake8 adapter emits
`f"{code}: {text}"` without truncation, so a 250-character flake8 message
yields a 256-character description. -/
theorem flake8_description_over_200_cex :
    (run_flake8 (some flake8LongLine)).map (fun f => f.description.length)
      = [256] ∧ 200 < 256 := by
  constructor
  · rfl
  · decide

/-- **C9 (amended).** Failure records built by
`_extract_failure_details` — the test-runner adapters' common path — have
descriptions of at most 200 characters (the `[:200]` slice), but records
emitted directly by the linter adapters (flake8's `f"{code}: {text}"`,
eslint's raw message) are not truncated and may exceed 200 characters. -/
theorem extract_details_description_bounded :
    ∀ file_path context : String,
      (extract_failure_details file_path context).description.length ≤ 200 := by
  intro file_path context
  simp only [extract_failure_details, pyTake, String.length]
  exact le_trans (le_of_eq (List.length_take _ _)) (Nat.min_le_left _ _)

end Spec2Proof
